import Mathlib

/-!
Verification development for the Remnawave Connection Limiter repository.

The Python sources are shallowly embedded as executable Lean definitions:

* `server.py`  — the controller (`DB`, `check_user`, `handle_violation`,
  `analyze_sharing`, the `/log` and `/log_upload` HTTP handlers);
* `node.py`    — the node agent (`block_ip`, `unblock_ip`, the control
  HTTP handler, the pending-upload queue of `tail_log`/`batch_sender`);
* `database.py`, `checker.py`, `remnawave_api.py` — the checker variant
  (`init_db`, blocked-users queries, `ConnectionChecker.check_user`,
  `RemnawaveAPI.get_user_device_limit`).

Timestamps are modelled as `Int` seconds; Python dicts keyed by strings are
modelled as association lists in which an insert removes every older binding
of the key (matching dict single-binding semantics); SQLite tables are
modelled as lists of row structures.
-/

/- ===================== server.py : connection index ===================== -/

/-- Configuration values read by `server.py` via `cfg_int`/`cfg`
(defaults as in the source). -/
structure ServerCfg where
  ipWindowSeconds : Int := 300
  concurrentWindow : Int := 30
  dropCooldownSeconds : Int := 60
  disableMinutes : Nat := 10
  dropAllIps : Bool := true
deriving Repr, DecidableEq

/-- One row of the in-memory `connections` table of `server.py`
(`user TEXT, ip TEXT, node TEXT, ts INTEGER, PRIMARY KEY(user, ip)`). -/
structure ConnRow where
  user : String
  ip : String
  node : String
  ts : Int
deriving Repr, DecidableEq

/-- The `connections` table.  The primary key `(user, ip)` admits at most one
row per key; `db_add` below maintains this by replacement. -/
abbrev ConnDB := List ConnRow

/-- `DB.add` (server.py:111-115): `INSERT OR REPLACE INTO connections`,
keyed by the primary key `(user, ip)`.  Any existing row for the key is
replaced by the new `(user, ip, node, now)` row. -/
def db_add (db : ConnDB) (user ip node : String) (now : Int) : ConnDB :=
  db.filter (fun r => !(r.user = user && r.ip = ip)) ++ [⟨user, ip, node, now⟩]

/-- The rows a `SELECT ... WHERE user=? AND ip=?` would return. -/
def rowsFor (db : ConnDB) (user ip : String) : List ConnRow :=
  db.filter (fun r => r.user = user && r.ip = ip)

/-- `DB.get_user_ips` (server.py:117-120):
`SELECT DISTINCT ip FROM connections WHERE user=? AND ts>?` with
`cutoff = now - IP_WINDOW_SECONDS`. -/
def get_user_ips (c : ServerCfg) (db : ConnDB) (now : Int) (user : String) :
    List String :=
  ((db.filter (fun r => r.user = user && now - c.ipWindowSeconds < r.ts)).map
    (fun r => r.ip)).dedup

/-- Filtering by a predicate after filtering by its negation yields nothing. -/
theorem filter_after_filter_neg {α : Type} (p : α → Bool) (l : List α) :
    List.filter p (List.filter (fun x => !(p x)) l) = [] := by
  induction l with
  | nil => rfl
  | cons r rs ih =>
    cases hp : p r with
    | true => simp [List.filter_cons, hp, ih]
    | false => simp [List.filter_cons, hp, ih]

theorem rowsFor_db_add_self (db : ConnDB) (u ip node : String) (now : Int) :
    rowsFor (db_add db u ip node now) u ip = [⟨u, ip, node, now⟩] := by
  unfold rowsFor db_add
  rw [List.filter_append,
    filter_after_filter_neg (fun r => r.user = u && r.ip = ip) db]
  simp [List.filter_cons]

/-- **C6** — Ingesting the same `(subscriber, ip)` pair twice leaves exactly
one row in the connection index, carrying the node and timestamp of the
later report: duplicates update, they never accumulate.  In particular this
holds when both reports fall within `IP_WINDOW`. -/
theorem c6_duplicate_ingest_updates (db : ConnDB) (u ip n₁ n₂ : String)
    (t₁ t₂ : Int) :
    rowsFor (db_add (db_add db u ip n₁ t₁) u ip n₂ t₂) u ip
      = [⟨u, ip, n₂, t₂⟩] :=
  rowsFor_db_add_self _ u ip n₂ t₂

/- ===================== server.py : violation handling ===================== -/

/-- Side effects issued by `handle_violation` (server.py:363-391): the
subscription-API disable call, one firewall drop fan-out per IP, and the
Telegram notification, in source order. -/
inductive EnfAction where
  | disableSub (user : String) (minutes : Nat)
  | dropIp (ip : String)
  | telegram
deriving Repr, DecidableEq

/-- The `drop_cooldown` dict of server.py: `user_id -> last enforcement ts`. -/
abbrev CooldownMap := List (String × Int)

/-- Python dict read `drop_cooldown.get(user)`. -/
def cdLookup (m : CooldownMap) (u : String) : Option Int :=
  (m.find? (fun p => p.1 = u)).map (fun p => p.2)

/-- Python dict write `drop_cooldown[user] = t` (single binding per key). -/
def cdSet (m : CooldownMap) (u : String) (t : Int) : CooldownMap :=
  m.filter (fun p => !(p.1 = u)) ++ [(u, t)]

/-- Result of one `handle_violation` invocation: the updated cooldown map,
whether enforcement ran (the Python return value), and the side effects. -/
structure ViolationResult where
  cooldown : CooldownMap
  enforced : Bool
  actions : List EnfAction
deriving Repr, DecidableEq

/-- server.py:373 — `ips if drop_all else (ips[limit:] if len(ips) > limit
else ips[-1:])`.  `ips[-1:]` is `List.drop (length - 1)`. -/
def ips_to_drop (dropAll : Bool) (ips : List String) (limit : Nat) :
    List String :=
  if dropAll then ips
  else if limit < ips.length then ips.drop limit
  else ips.drop (ips.length - 1)

/-- `handle_violation` (server.py:363-391).  If the subscriber is inside the
cool-down the call returns `False` with no side effects; otherwise the
cool-down is stamped with `now` and the disable / drop / Telegram pipeline
runs. -/
def handle_violation (c : ServerCfg) (cool : CooldownMap) (now : Int)
    (user : String) (ips : List String) (limit : Nat) : ViolationResult :=
  if (match cdLookup cool user with
      | some last => decide (now - last < c.dropCooldownSeconds)
      | none => false) = true
  then ⟨cool, false, []⟩
  else
    ⟨cdSet cool user now, true,
      EnfAction.disableSub user c.disableMinutes ::
        ((ips_to_drop c.dropAllIps ips limit).map EnfAction.dropIp
          ++ [EnfAction.telegram])⟩

/-- The decoded subscription-API user record; the controller reads `uuid`,
`hwidDeviceLimit` and `status`. -/
structure UserRec where
  uuid : String
  hwidDeviceLimit : Option Nat
  status : String
deriving Repr, DecidableEq

/-- `get_user_limit` (server.py:201-225) reduced to its data dependency: a
missing/failed lookup yields `0`, otherwise `hwidDeviceLimit or 0`
(both `null` and `0` collapse to `0`). -/
def server_fetched_limit : Option UserRec → Nat
  | none => 0
  | some u => u.hwidDeviceLimit.getD 0

/-- Result of `check_user`: updated cooldown map, whether `handle_violation`
was invoked (a violation was emitted), and the resulting side effects. -/
structure CheckResult where
  cooldown : CooldownMap
  emitted : Bool
  actions : List EnfAction
deriving Repr, DecidableEq

/-- `check_user` (server.py:424-434): fetch the limit, short-circuit on
`limit <= 0`, and invoke `handle_violation` iff the distinct-IP count within
`IP_WINDOW` exceeds the limit. -/
def server_check_user (c : ServerCfg) (db : ConnDB) (cool : CooldownMap)
    (now : Int) (apiUser : Option UserRec) (user : String) : CheckResult :=
  let limit := server_fetched_limit apiUser
  if limit = 0 then ⟨cool, false, []⟩
  else
    let allIps := get_user_ips c db now user
    if limit < allIps.length then
      let r := handle_violation c cool now user allIps limit
      ⟨r.cooldown, true, r.actions⟩
    else ⟨cool, false, []⟩

/-- **C2** — Under the strict count-based policy, for a subscriber with a
positive device limit, `check_user` emits a violation (invokes
`handle_violation`) iff the number of distinct IPs recorded within
`IP_WINDOW` exceeds the limit. -/
theorem c2_strict_violation_iff (c : ServerCfg) (db : ConnDB)
    (cool : CooldownMap) (now : Int) (apiUser : Option UserRec)
    (user : String) (h : 0 < server_fetched_limit apiUser) :
    (server_check_user c db cool now apiUser user).emitted = true
      ↔ server_fetched_limit apiUser < (get_user_ips c db now user).length := by
  have hne : ¬ server_fetched_limit apiUser = 0 := by omega
  by_cases hlt :
      server_fetched_limit apiUser < (get_user_ips c db now user).length
  · simp [server_check_user, hne, hlt]
  · simp [server_check_user, hne, hlt]

theorem c2_strict_violation_iff_witness :
    0 < server_fetched_limit (some ⟨"uu", some 1, "ACTIVE"⟩) ∧
    ((server_check_user {} [⟨"u", "1.1.1.1", "n1", 100⟩,
        ⟨"u", "2.2.2.2", "n1", 100⟩] [] 100
        (some ⟨"uu", some 1, "ACTIVE"⟩) "u").emitted = true
      ↔ server_fetched_limit (some ⟨"uu", some 1, "ACTIVE"⟩)
          < (get_user_ips {} [⟨"u", "1.1.1.1", "n1", 100⟩,
              ⟨"u", "2.2.2.2", "n1", 100⟩] 100 "u").length) :=
  ⟨by decide,
    c2_strict_violation_iff {} _ [] 100 (some ⟨"uu", some 1, "ACTIVE"⟩) "u"
      (by decide)⟩

theorem cdLookup_cdSet (m : CooldownMap) (u : String) (t : Int) :
    cdLookup (cdSet m u t) u = some t := by
  unfold cdLookup cdSet
  have hnone : (m.filter (fun p => !(p.1 = u))).find?
      (fun p => p.1 = u) = none := by
    induction m with
    | nil => rfl
    | cons p ps ih =>
      by_cases hp : p.1 = u
      · simp [List.filter_cons, hp, ih]
      · simp [List.filter_cons, hp, List.find?_cons, ih]
  rw [List.find?_append, hnone]
  simp

/-- **C4** — Two violations for the same subscriber detected less than
`DROP_COOLDOWN` seconds apart produce exactly one enforcement: given that
the first invocation of `handle_violation` enforced, the second returns
`False` with no disable call and no IP-drop fan-out, and leaves the
cool-down map unchanged. -/
theorem c4_cooldown_absorbs (c : ServerCfg) (cool : CooldownMap)
    (t₁ t₂ : Int) (user : String) (ips₁ ips₂ : List String) (l₁ l₂ : Nat)
    (_hle : t₁ ≤ t₂) (hgap : t₂ - t₁ < c.dropCooldownSeconds)
    (h1 : (handle_violation c cool t₁ user ips₁ l₁).enforced = true) :
    (handle_violation c (handle_violation c cool t₁ user ips₁ l₁).cooldown
        t₂ user ips₂ l₂).enforced = false
    ∧ (handle_violation c (handle_violation c cool t₁ user ips₁ l₁).cooldown
        t₂ user ips₂ l₂).actions = []
    ∧ (handle_violation c (handle_violation c cool t₁ user ips₁ l₁).cooldown
        t₂ user ips₂ l₂).cooldown
      = (handle_violation c cool t₁ user ips₁ l₁).cooldown := by
  have hcd : (handle_violation c cool t₁ user ips₁ l₁).cooldown
      = cdSet cool user t₁ := by
    unfold handle_violation at h1 ⊢
    rcases hl : cdLookup cool user with _ | last
    · simp [hl]
    · simp only [hl] at h1 ⊢
      by_cases hs : t₁ - last < c.dropCooldownSeconds
      · simp [hs] at h1
      · simp [hs]
  rw [hcd]
  unfold handle_violation
  rw [cdLookup_cdSet]
  simp [hgap]

theorem c4_cooldown_absorbs_witness :
    ((0 : Int) ≤ 5 ∧ (5 : Int) - 0 < ({} : ServerCfg).dropCooldownSeconds ∧
      (handle_violation {} [] 0 "carol" ["1.1.1.1", "2.2.2.2"] 1).enforced
        = true) ∧
    (handle_violation {}
        (handle_violation {} [] 0 "carol" ["1.1.1.1", "2.2.2.2"] 1).cooldown
        5 "carol" ["1.1.1.1", "2.2.2.2"] 1).enforced = false ∧
    (handle_violation {}
        (handle_violation {} [] 0 "carol" ["1.1.1.1", "2.2.2.2"] 1).cooldown
        5 "carol" ["1.1.1.1", "2.2.2.2"] 1).actions = [] ∧
    (handle_violation {}
        (handle_violation {} [] 0 "carol" ["1.1.1.1", "2.2.2.2"] 1).cooldown
        5 "carol" ["1.1.1.1", "2.2.2.2"] 1).cooldown
      = (handle_violation {} [] 0 "carol" ["1.1.1.1", "2.2.2.2"] 1).cooldown :=
  ⟨⟨by decide, by decide, by decide⟩,
    c4_cooldown_absorbs {} [] 0 5 "carol" ["1.1.1.1", "2.2.2.2"]
      ["1.1.1.1", "2.2.2.2"] 1 1 (by decide) (by decide) (by decide)⟩

/- ===================== server.py : analyze_sharing (smart policy) ===================== -/

/-- analyze_sharing's query (server.py:406-409):
`SELECT DISTINCT ip, node FROM connections WHERE user=? AND ts>?` with
cutoff `now - CONCURRENT_WINDOW`. -/
def concurrent_rows (c : ServerCfg) (db : ConnDB) (now : Int)
    (user : String) : List (String × String) :=
  ((db.filter (fun r => r.user = user && now - c.concurrentWindow < r.ts)).map
    (fun r => (r.ip, r.node))).dedup

/-- `analyze_sharing` (server.py:393-422): flags sharing only when the
connections inside `CONCURRENT_WINDOW` span two or more distinct non-empty
node names; returns `(flag, ips, reason)`. -/
def analyze_sharing (c : ServerCfg) (db : ConnDB) (now : Int)
    (user : String) (_limit : Nat) : Bool × List String × String :=
  let rows := concurrent_rows c db now user
  if rows = [] then (false, [], "no data")
  else
    let ips := rows.map Prod.fst
    let nodes := ((rows.filter (fun r => !(r.2 = ""))).map Prod.snd).dedup
    if 2 ≤ nodes.length then
      (true, ips,
        toString ips.length ++ " IPs on " ++ toString nodes.length ++ " nodes")
    else (false, [], "ok")

/-- The `/24` network of a dotted-quad IP: everything before the last dot
(used only by the spec-side policy below). -/
def subnet24 (ip : String) : String :=
  ⟨((ip.data.reverse.dropWhile (fun ch => !(ch = '.'))).drop 1).reverse⟩

/-- Distinct IPs of the subscriber seen within `CONCURRENT_WINDOW`
(the spec's `concurrent_ips`). -/
def spec_concurrent_ips (c : ServerCfg) (db : ConnDB) (now : Int)
    (user : String) : List String :=
  ((db.filter (fun r => r.user = user && now - c.concurrentWindow < r.ts)).map
    (fun r => r.ip)).dedup

/-- Distinct nodes of the subscriber seen within `CONCURRENT_WINDOW`
(the spec's `concurrent_nodes`). -/
def spec_concurrent_nodes (c : ServerCfg) (db : ConnDB) (now : Int)
    (user : String) : List String :=
  ((db.filter (fun r => r.user = user && now - c.concurrentWindow < r.ts)).map
    (fun r => r.node)).dedup

/-- The smart (hand-over-tolerant) policy exactly as the specification words
it, formalised for comparison with `analyze_sharing`: violation iff
`|concurrent_nodes| >= 2`, or `|concurrent_ips| > L` with more than `L`
distinct `/24` subnets, or `|concurrent_ips| > L + 1`. -/
def smart_spec_flag (c : ServerCfg) (db : ConnDB) (now : Int)
    (user : String) (limit : Nat) : Bool :=
  let cips := spec_concurrent_ips c db now user
  let cnodes := spec_concurrent_nodes c db now user
  let subnets := (cips.map subnet24).dedup
  decide (2 ≤ cnodes.length)
    || (decide (limit < cips.length) && decide (limit < subnets.length))
    || decide (limit + 1 < cips.length)

/-- A state on which the spec's smart policy and the code disagree:
subscriber `u` with three concurrent IPs in three different /24 subnets,
all on the single node `n1`, against limit 1. -/
def c3ExampleDb : ConnDB :=
  [⟨"u", "1.1.1.1", "n1", 100⟩, ⟨"u", "2.2.2.2", "n1", 100⟩,
   ⟨"u", "3.3.3.3", "n1", 100⟩]

/-- **C3 counterexample** — On `c3ExampleDb` with limit 1 the smart policy as
claimed flags a violation (`3 = |concurrent_ips| > L + 1 = 2`, and the IPs
span `3 > L` subnets), but `analyze_sharing` does not flag (single node):
the claimed formula is not what the code computes. -/
theorem c3_smart_policy_counterexample :
    smart_spec_flag {} c3ExampleDb 100 "u" 1 = true
    ∧ (analyze_sharing {} c3ExampleDb 100 "u" 1).1 = false := by decide

/-- **C3 (amended)** — `analyze_sharing` flags a violation iff the
subscriber's connections within `CONCURRENT_WINDOW` span at least two
distinct non-empty node names; IP counts and `/24` subnets are never
consulted.  Moreover `check_user` (the only detection path) is insensitive
to node names entirely — rewriting every node name arbitrarily leaves its
result unchanged — so no configuration switch routes detection through
`analyze_sharing`. -/
theorem c3_smart_policy_amended (c : ServerCfg) (db : ConnDB) (now : Int)
    (cool : CooldownMap) (apiUser : Option UserRec) (user : String)
    (limit : Nat) :
    ((analyze_sharing c db now user limit).1 = true
      ↔ 2 ≤ (((concurrent_rows c db now user).filter
          (fun r => !(r.2 = ""))).map Prod.snd).dedup.length)
    ∧ (∀ f : String → String,
        server_check_user c (db.map fun r => ⟨r.user, r.ip, f r.node, r.ts⟩)
            cool now apiUser user
          = server_check_user c db cool now apiUser user) := by
  constructor
  · unfold analyze_sharing
    by_cases hrows : concurrent_rows c db now user = []
    · simp [hrows]
    · by_cases h2 : 2 ≤ (((concurrent_rows c db now user).filter
          (fun r => !(r.2 = ""))).map Prod.snd).dedup.length
      · simp [hrows, h2]
      · simp [hrows, h2]
  · intro f
    have hips : get_user_ips c (db.map fun r => ⟨r.user, r.ip, f r.node, r.ts⟩)
        now user = get_user_ips c db now user := by
      unfold get_user_ips
      congr 1
      induction db with
      | nil => rfl
      | cons r rs ih =>
        by_cases hr : r.user = user ∧ now - c.ipWindowSeconds < r.ts
        · simp [List.filter_cons, hr.1, hr.2, ih]
        · rcases Decidable.em (r.user = user) with h1 | h1
          · have h2 : ¬ now - c.ipWindowSeconds < r.ts := fun h => hr ⟨h1, h⟩
            simp [List.filter_cons, h1, h2, ih]
          · simp [List.filter_cons, h1, ih]
    unfold server_check_user
    rw [hips]

/- ===================== server.py : log parsing and ingest ===================== -/

/-- Consume a literal character sequence at the head of the input, returning
the remainder on success. -/
def consumeLit : List Char → List Char → Option (List Char)
  | [], cs => some cs
  | _ :: _, [] => none
  | l :: ls, c :: cs => if c = l then consumeLit ls cs else none

/-- Regex `\d+`: one or more digits at the head, returning them and the
remainder. -/
def takeDigits1 (cs : List Char) : Option (List Char × List Char) :=
  let ds := cs.takeWhile Char.isDigit
  if ds = [] then none else some (ds, cs.dropWhile Char.isDigit)

/-- Match `\d+\.\d+\.\d+\.\d+:\d+` at the head of the input and return the
captured dotted quad (the regex group). -/
def matchIpPort (cs : List Char) : Option (List Char) := do
  let (d1, r1) ← takeDigits1 cs
  let r1 ← consumeLit ['.'] r1
  let (d2, r2) ← takeDigits1 r1
  let r2 ← consumeLit ['.'] r2
  let (d3, r3) ← takeDigits1 r2
  let r3 ← consumeLit ['.'] r3
  let (d4, r4) ← takeDigits1 r3
  let r4 ← consumeLit [':'] r4
  let _ ← takeDigits1 r4
  some (d1 ++ '.' :: d2 ++ '.' :: d3 ++ '.' :: d4)

/-- After the literal `from `, regex `(?:tcp:)?(IP):port`: the optional
`tcp:` is consumed greedily, falling back to a direct match. -/
def matchAfterFrom (cs : List Char) : Option (List Char) :=
  match consumeLit ['t', 'c', 'p', ':'] cs with
  | some rest =>
    (match matchIpPort rest with
     | some ip => some ip
     | none => matchIpPort cs)
  | none => matchIpPort cs

/-- `re.search` for `from (?:tcp:)?(\d+\.\d+\.\d+\.\d+):\d+`: leftmost
matching occurrence. -/
def searchFromIp : List Char → Option (List Char)
  | [] => none
  | c :: cs =>
    match (match consumeLit ['f', 'r', 'o', 'm', ' '] (c :: cs) with
           | some rest => matchAfterFrom rest
           | none => none) with
    | some ip => some ip
    | none => searchFromIp cs

/-- `re.search` for `email:\s*(\S+)`: leftmost occurrence of `email:`
followed by optional whitespace and a nonempty run of non-whitespace. -/
def searchEmailTok : List Char → Option (List Char)
  | [] => none
  | c :: cs =>
    match (match consumeLit ['e', 'm', 'a', 'i', 'l', ':'] (c :: cs) with
           | some rest =>
             let tok := (rest.dropWhile Char.isWhitespace).takeWhile
               (fun ch => !ch.isWhitespace)
             if tok = [] then none else some tok
           | none => none) with
    | some t => some t
    | none => searchEmailTok cs

/-- Python `str.replace` of `user_` by the empty string: delete every
occurrence, scanning left to right. -/
def dropUserMarks : List Char → List Char
  | 'u' :: 's' :: 'e' :: 'r' :: '_' :: cs => dropUserMarks cs
  | c :: cs => c :: dropUserMarks cs
  | [] => []

/-- `parse_log_line` (server.py:444-449): both regexes must match; the
`user_` display marker is stripped from the subscriber token. -/
def parse_log_line (line : String) : Option (String × String) :=
  match searchFromIp line.data, searchEmailTok line.data with
  | some ip, some email => some (⟨dropUserMarks email⟩, ⟨ip⟩)
  | _, _ => none

/-- Python `str.strip()`. -/
def pyStrip (s : String) : String :=
  ⟨((s.data.dropWhile Char.isWhitespace).reverse.dropWhile
      Char.isWhitespace).reverse⟩

/-- The persisted `log_state` dict: node name -> last processed raw line. -/
abbrev LogState := List (String × String)

def lsLookup (m : LogState) (k : String) : Option String :=
  (m.find? (fun p => p.1 = k)).map (fun p => p.2)

def lsSet (m : LogState) (k v : String) : LogState :=
  m.filter (fun p => !(p.1 = k)) ++ [(k, v)]

/-- server.py:456-462: resume after the previously processed last line, if
it is found among the incoming lines. -/
def startIdx (lastLine : String) (lines : List String) : Nat :=
  if lastLine = "" then 0
  else
    match lines.findIdx? (fun l => pyStrip l = pyStrip lastLine) with
    | some i => i + 1
    | none => 0

/-- Python set insertion for `users_to_check` (membership-deduplicated). -/
def insertUserOnce (us : List String) (u : String) : List String :=
  if u ∈ us then us else us ++ [u]

/-- `process_log_lines` (server.py:451-482): skip already-seen lines, strip
and parse each remaining line, admit parsed events, record the last line,
and return `(log_state, db, processed, users_to_check)`. -/
def process_log_lines (st : LogState) (db : ConnDB) (now : Int)
    (lines : List String) (node : String) :
    LogState × ConnDB × Nat × List String :=
  if lines = [] then (st, db, 0, [])
  else
    let lastLine := (lsLookup st node).getD ""
    let body := lines.drop (startIdx lastLine lines)
    let step := fun (acc : ConnDB × Nat × List String) (line : String) =>
      let l := pyStrip line
      if l = "" then acc
      else
        match parse_log_line l with
        | some (u, ip) =>
          if u ≠ "" ∧ ip ≠ "" then
            (db_add acc.1 u ip node now, acc.2.1 + 1,
              insertUserOnce acc.2.2 u)
          else acc
        | none => acc
    let r := body.foldl step (db, 0, [])
    let st' := lsSet st node (pyStrip ((lines.getLast?).getD ""))
    (st', r.1, r.2.1, r.2.2)

/-- A `/log_upload` request body. -/
structure UploadReq where
  node : String
  lines : List String
  secret : String
deriving Repr, DecidableEq

/-- Outcome of an ingest handler: persisted log state, connection index,
HTTP status, processed count, and the subscribers queued for `check_user`. -/
structure IngestResult where
  logState : LogState
  db : ConnDB
  status : Nat
  processed : Nat
  checked : List String
deriving Repr, DecidableEq

/-- `handle_log_upload` (server.py:486-501): the secret is compared against
`NODE_API_SECRET` before any line is processed; mismatch yields 403 with the
state untouched. -/
def handle_log_upload (cfgSecret : String) (st : LogState) (db : ConnDB)
    (now : Int) (req : UploadReq) : IngestResult :=
  if req.secret ≠ cfgSecret then ⟨st, db, 403, 0, []⟩
  else
    let (st', db', n, users) := process_log_lines st db now req.lines req.node
    ⟨st', db', 200, n, users⟩

/-- A `/log` request body. -/
structure SingleReq where
  user : String
  ip : String
  node : String
  secret : String
deriving Repr, DecidableEq

/-- `handle_log_single` (server.py:503-514).  Note: the handler never reads
the request's `secret` field — there is no authentication on `/log`. -/
def handle_log_single (db : ConnDB) (now : Int) (req : SingleReq) :
    Nat × ConnDB × List String :=
  let u : String := ⟨dropUserMarks req.user.data⟩
  if u ≠ "" ∧ req.ip ≠ "" then (200, db_add db u req.ip req.node now, [u])
  else (200, db, [])

/-- **C1 counterexample** — A `/log` request with an empty `secret` (not the
configured secret) is answered 200 and its event enters the connection
index: the single-event endpoint performs no authentication, contradicting
the claim that every request lacking a valid secret is rejected with no
event admitted. -/
theorem c1_single_unauthenticated_counterexample :
    handle_log_single [] 0 ⟨"user_42", "9.9.9.9", "n1", ""⟩
        = (200, [⟨"42", "9.9.9.9", "n1", 0⟩], ["42"])
    ∧ ("" : String) ≠ "s3cret"
    ∧ (200 : Nat) ≠ 401 ∧ (200 : Nat) ≠ 403 := by decide

/-- **C1 (amended)** — Only the batch endpoint authenticates: an upload whose
secret differs from the configured one is rejected with 403 and nothing is
processed or admitted, while the single-event endpoint `/log` ignores the
secret field entirely — its result is identical for any two secrets. -/
theorem c1_ingest_auth_amended (cfgSecret : String) (st : LogState)
    (db : ConnDB) (now : Int) (req : UploadReq) (sreq : SingleReq)
    (h : req.secret ≠ cfgSecret) :
    handle_log_upload cfgSecret st db now req = ⟨st, db, 403, 0, []⟩
    ∧ ∀ s₁ s₂ : String,
        handle_log_single db now ⟨sreq.user, sreq.ip, sreq.node, s₁⟩
          = handle_log_single db now ⟨sreq.user, sreq.ip, sreq.node, s₂⟩ := by
  refine ⟨?_, fun s₁ s₂ => rfl⟩
  unfold handle_log_upload
  simp [h]

theorem c1_ingest_auth_amended_witness :
    ("" : String) ≠ "s3cret"
    ∧ handle_log_upload "s3cret" [] [] 0 ⟨"n1", ["x"], ""⟩
        = ⟨[], [], 403, 0, []⟩
    ∧ handle_log_single [] 0 ⟨"alice", "1.2.3.4", "n1", "a"⟩
        = handle_log_single [] 0 ⟨"alice", "1.2.3.4", "n1", "b"⟩ :=
  ⟨by decide,
    (c1_ingest_auth_amended "s3cret" [] [] 0 ⟨"n1", ["x"], ""⟩
      ⟨"alice", "1.2.3.4", "n1", ""⟩ (by decide)).1,
    (c1_ingest_auth_amended "s3cret" [] [] 0 ⟨"n1", ["x"], ""⟩
      ⟨"alice", "1.2.3.4", "n1", ""⟩ (by decide)).2 "a" "b"⟩

/- ===================== node.py : firewall executor ===================== -/

/-- Remove all bindings of a key from a string-keyed dict
(`d.pop(k, None)`). -/
def cdRemove (m : List (String × Int)) (u : String) : List (String × Int) :=
  m.filter (fun p => !(p.1 = u))

/-- Agent state: the installed firewall rules (`iptables -I INPUT -s ip -j
DROP`, newest first) and the `blocked_ips` registry `ip -> expire_time`. -/
structure AgentState where
  rules : List String
  blocked : List (String × Int)
deriving Repr, DecidableEq

/-- Result of `block_ip`: next state, Python return value, log output. -/
structure BlockResult where
  state : AgentState
  ok : Bool
  logs : List String
deriving Repr, DecidableEq

/-- `block_ip` (node.py:162-177).  `iptables -C` is modelled as rule
membership; `insertOk` models whether the privileged `iptables -I` call
succeeds.  A failed insert raises, so the registry write is skipped and the
handler returns `False`; otherwise `blocked_ips[ip] = now + duration`
overwrites any previous expiry. -/
def block_ip (insertOk : Bool) (st : AgentState) (now : Int) (ip : String)
    (duration : Int) : BlockResult :=
  if ip ∈ st.rules then
    ⟨⟨st.rules, cdSet st.blocked ip (now + duration)⟩, true, []⟩
  else if insertOk then
    ⟨⟨ip :: st.rules, cdSet st.blocked ip (now + duration)⟩, true,
      ["BLOCK " ++ ip]⟩
  else ⟨st, false, ["Block error"]⟩

/-- `unblock_ip` (node.py:179-185): `iptables -D` removes one matching rule
instance; failures are swallowed. -/
def unblock_ip (rules : List String) (ip : String) : List String :=
  rules.erase ip

/-- A control-protocol request body as read by `Handler.do_POST`. -/
structure NodeReq where
  path : String
  secret : String
  ip : Option String
  duration : Int
deriving Repr, DecidableEq

/-- Response of the agent's POST handler: next state, HTTP status, logs. -/
structure NodeResp where
  state : AgentState
  status : Nat
  logs : List String
deriving Repr, DecidableEq

/-- `Handler.do_POST` (node.py:210-250): secret gate (403), then `/block`
(200 on success, 400 on failure or missing ip), `/unblock` (200),
`/clear` (200), else 404. -/
def node_do_post (apiSecret : String) (insertOk : Bool) (st : AgentState)
    (now : Int) (req : NodeReq) : NodeResp :=
  if req.secret ≠ apiSecret then ⟨st, 403, []⟩
  else if req.path = "/block" then
    match req.ip with
    | some ip =>
      let r := block_ip insertOk st now ip req.duration
      ⟨r.state, if r.ok then 200 else 400, r.logs⟩
    | none => ⟨st, 400, []⟩
  else if req.path = "/unblock" then
    match req.ip with
    | some ip =>
      ⟨⟨unblock_ip st.rules ip, cdRemove st.blocked ip⟩, 200,
        ["UNBLOCK " ++ ip]⟩
    | none => ⟨st, 200, []⟩
  else if req.path = "/clear" then
    ⟨⟨st.blocked.foldl (fun rs p => unblock_ip rs p.1) st.rules, []⟩, 200,
      ["CLEARED"]⟩
  else ⟨st, 404, []⟩

/-- **C5 counterexample** — Re-blocking overwrites `expires_at` instead of
only extending it: blocking `1.2.3.4` for 100 s at t=0 records expiry 100,
and re-blocking it for 10 s at t=1 rewrites the expiry to 11 — the recorded
expiry is SHORTENED, contradicting the claim. -/
theorem c5_block_overwrite_counterexample :
    cdLookup (block_ip true ⟨[], []⟩ 0 "1.2.3.4" 100).state.blocked "1.2.3.4"
        = some 100
    ∧ cdLookup (block_ip true (block_ip true ⟨[], []⟩ 0 "1.2.3.4" 100).state
          1 "1.2.3.4" 10).state.blocked "1.2.3.4" = some 11
    ∧ (11 : Int) < 100 := by decide

theorem cdSet_filter_self (m : List (String × Int)) (u : String) (t : Int) :
    (cdSet m u t).filter (fun p => p.1 = u) = [(u, t)] := by
  unfold cdSet
  rw [List.filter_append, filter_after_filter_neg (fun p => p.1 = u) m]
  simp

/-- **C5 (amended)** — Re-blocking a key is not an error and leaves exactly
one firewall rule and one registry entry for it, but `block_ip` OVERWRITES
`expires_at` with `now + ttl` rather than extending it; for two successive
`block(ip, ttl)` calls with the same ttl under a nondecreasing clock the
final expiry is `t₂ + ttl`, which equals the maximum of the two computed
expirations. -/
theorem c5_block_idempotent_amended (st : AgentState) (ip : String)
    (t₁ t₂ ttl : Int) (hle : t₁ ≤ t₂) (hcount : st.rules.count ip ≤ 1) :
    (block_ip true (block_ip true st t₁ ip ttl).state t₂ ip ttl).ok = true
    ∧ (block_ip true (block_ip true st t₁ ip ttl).state t₂ ip
        ttl).state.rules.count ip = 1
    ∧ ((block_ip true (block_ip true st t₁ ip ttl).state t₂ ip
        ttl).state.blocked.filter (fun p => p.1 = ip)).length = 1
    ∧ cdLookup (block_ip true (block_ip true st t₁ ip ttl).state t₂ ip
        ttl).state.blocked ip = some (max (t₁ + ttl) (t₂ + ttl)) := by
  have hmax : max (t₁ + ttl) (t₂ + ttl) = t₂ + ttl :=
    max_eq_right (by omega)
  by_cases hmem : ip ∈ st.rules
  · have hone : st.rules.count ip = 1 :=
      Nat.le_antisymm hcount (List.count_pos_iff.mpr hmem)
    simp [block_ip, hmem, cdSet_filter_self, cdLookup_cdSet, hmax, hone]
  · have hzero : st.rules.count ip = 0 :=
      List.count_eq_zero.mpr hmem
    simp [block_ip, hmem, cdSet_filter_self, cdLookup_cdSet, hmax, hzero]

theorem c5_block_idempotent_amended_witness :
    ((0 : Int) ≤ 5 ∧ (AgentState.mk [] []).rules.count "1.2.3.4" ≤ 1) ∧
    (block_ip true (block_ip true ⟨[], []⟩ 0 "1.2.3.4" 100).state 5 "1.2.3.4"
        100).ok = true
    ∧ (block_ip true (block_ip true ⟨[], []⟩ 0 "1.2.3.4" 100).state 5
        "1.2.3.4" 100).state.rules.count "1.2.3.4" = 1
    ∧ ((block_ip true (block_ip true ⟨[], []⟩ 0 "1.2.3.4" 100).state 5
        "1.2.3.4" 100).state.blocked.filter
          (fun p => p.1 = "1.2.3.4")).length = 1
    ∧ cdLookup (block_ip true (block_ip true ⟨[], []⟩ 0 "1.2.3.4" 100).state
        5 "1.2.3.4" 100).state.blocked "1.2.3.4"
      = some (max (0 + 100) (5 + 100)) :=
  ⟨⟨by decide, by decide⟩,
    c5_block_idempotent_amended ⟨[], []⟩ "1.2.3.4" 0 5 100 (by decide)
      (by decide)⟩

/-- **C9 counterexample** — With the privileged insert failing, an
authenticated `/block` request is answered 400, not 500 as the claim states
(500 is only produced when the handler itself raises). -/
theorem c9_failure_status_counterexample :
    node_do_post "sec" false ⟨[], []⟩ 0 ⟨"/block", "sec", some "5.6.7.8", 300⟩
        = ⟨⟨[], []⟩, 400, ["Block error"]⟩
    ∧ (400 : Nat) ≠ 500 := by decide

/-- **C9 (amended)** — If the privileged firewall command fails while
installing a block, the agent does not mark the rule active: the rules and
the blocked-address registry are left unchanged, the failure is logged, and
status 400 is returned to the authenticated caller (not 500). -/
theorem c9_failure_leaves_registry_amended (apiSecret : String)
    (st : AgentState) (now : Int) (ip : String) (dur : Int)
    (hip : ip ∉ st.rules) :
    node_do_post apiSecret false st now ⟨"/block", apiSecret, some ip, dur⟩
      = ⟨st, 400, ["Block error"]⟩ := by
  unfold node_do_post block_ip
  simp [hip]

theorem c9_failure_leaves_registry_amended_witness :
    ("5.6.7.8" ∉ (AgentState.mk ["1.1.1.1"] [("1.1.1.1", 50)]).rules) ∧
    node_do_post "sec" false ⟨["1.1.1.1"], [("1.1.1.1", 50)]⟩ 7
        ⟨"/block", "sec", some "5.6.7.8", 300⟩
      = ⟨⟨["1.1.1.1"], [("1.1.1.1", 50)]⟩, 400, ["Block error"]⟩ :=
  ⟨by decide,
    c9_failure_leaves_registry_amended "sec" ⟨["1.1.1.1"], [("1.1.1.1", 50)]⟩
      7 "5.6.7.8" 300 (by decide)⟩

/- ===================== node.py : upload pipeline queue ===================== -/

/-- A parsed log event queued by the tailer (node.py:135). -/
structure NodeEntry where
  user : String
  ip : String
deriving Repr, DecidableEq

/-- `pending_entries.append(...)` in `tail_log` (node.py:128-135): a plain
deque append — `pending_entries = deque()` is constructed with no `maxlen`
and no code path ever discards entries. -/
def pending_append (q : List NodeEntry) (e : NodeEntry) : List NodeEntry :=
  q ++ [e]

/-- The inner loop of `batch_sender` (node.py:97-109): pop oldest entries
until the batch holds `BATCH_SIZE` entries or the queue is empty, returning
`(batch, remaining queue)`. -/
def drain_batch : Nat → List NodeEntry → List NodeEntry × List NodeEntry
  | 0, q => ([], q)
  | _ + 1, [] => ([], [])
  | n + 1, e :: q =>
    let r := drain_batch n q
    (e :: r.1, r.2)

/-- The agent's exported metric counters (node.py:46):
`stats = {sent, parsed, errors}`. -/
def node_stats_keys : List String := ["sent", "parsed", "errors"]

/-- 51 parsed events, one more than the default `BATCH_SIZE` of 50. -/
def c8FiftyOne : List NodeEntry :=
  (List.range 51).map (fun i => ⟨"user_1", "10.0.0." ++ toString i⟩)

/-- **C8 counterexample** — Appending 51 parsed events to the empty pending
queue yields length 51, exceeding `BATCH_SIZE = 50` (the only bound-like
constant in the agent); the oldest event is still at the head — nothing was
dropped — and the agent exports no drop counter. -/
theorem c8_unbounded_queue_counterexample :
    (c8FiftyOne.foldl pending_append []).length = 51
    ∧ ¬ ((c8FiftyOne.foldl pending_append []).length ≤ 50)
    ∧ (c8FiftyOne.foldl pending_append []).head?
        = some ⟨"user_1", "10.0.0.0"⟩
    ∧ "dropped" ∉ node_stats_keys := by decide

/-- **C8 (amended)** — The pending queue is UNBOUNDED: the tailer appends
every parsed event and never drops any (appending a list of events extends
the queue by exactly that list, preserving all prior entries in order);
there is no drop metric among the agent's counters; and the only removal is
`batch_sender` taking up to `BATCH_SIZE` oldest entries per interval,
leaving the remainder intact. -/
theorem c8_queue_unbounded_amended (q : List NodeEntry)
    (es : List NodeEntry) (n : Nat) :
    es.foldl pending_append q = q ++ es
    ∧ drain_batch n q = (q.take n, q.drop n)
    ∧ "dropped" ∉ node_stats_keys := by
  refine ⟨?_, ?_, by decide⟩
  · induction es generalizing q with
    | nil => simp [pending_append]
    | cons e es ih => simp [pending_append, ih]
  · induction n generalizing q with
    | zero => simp [drain_batch]
    | succ n ih =>
      cases q with
      | nil => simp [drain_batch]
      | cons e q => simp [drain_batch, ih]

/- ============ database.py / remnawave_api.py / checker.py ============ -/

/-- A row of the checker's `connections` table (database.py:14-23: plain
`INSERT`, duplicates allowed, autoincrement id elided). -/
structure ChkConnRow where
  userEmail : String
  ipAddr : String
  port : Option String
  nodeName : Option String
  ts : Int
deriving Repr, DecidableEq

/-- A row of the `blocked_users` table referenced (but never created) by
database.py. -/
structure ChkBlockedRow where
  userEmail : String
  blockedUntil : Int
  originalStatus : String
deriving Repr, DecidableEq

/-- The checker-side SQLite database: the existing tables and their rows. -/
structure ChkDB where
  tables : List String
  connections : List ChkConnRow
  blockedUsers : List ChkBlockedRow
deriving Repr, DecidableEq

/-- `init_db` (database.py:8-38): `CREATE TABLE IF NOT EXISTS connections`
plus two indexes and a column migration.  No other table is created — in
particular, no `blocked_users`. -/
def init_db (db : ChkDB) : ChkDB :=
  if "connections" ∈ db.tables then db
  else { db with tables := db.tables ++ ["connections"] }

/-- A database initialised solely by `init_db` from an empty file. -/
def freshChkDB : ChkDB := init_db ⟨[], [], []⟩

/-- `is_user_blocked` (database.py:174-187): a SELECT against
`blocked_users`; sqlite raises an operational error when the table does not
exist. -/
def is_user_blocked (db : ChkDB) (user : String) (now : Int) :
    Except String Bool :=
  if "blocked_users" ∈ db.tables then
    .ok (db.blockedUsers.any
      (fun r => r.userEmail = user && now < r.blockedUntil))
  else .error "no such table: blocked_users"

/-- `add_blocked_user` (database.py:131-142): `INSERT OR REPLACE INTO
blocked_users` keyed by the user. -/
def add_blocked_user (db : ChkDB) (user : String) (blockedUntil : Int)
    (origStatus : String) : Except String ChkDB :=
  if "blocked_users" ∈ db.tables then
    .ok { db with blockedUsers :=
      db.blockedUsers.filter (fun r => !(r.userEmail = user))
        ++ [⟨user, blockedUntil, origStatus⟩] }
  else .error "no such table: blocked_users"

/-- `get_users_to_unblock` (database.py:145-160). -/
def get_users_to_unblock (db : ChkDB) (now : Int) :
    Except String (List (String × String)) :=
  if "blocked_users" ∈ db.tables then
    .ok ((db.blockedUsers.filter (fun r => r.blockedUntil ≤ now)).map
      (fun r => (r.userEmail, r.originalStatus)))
  else .error "no such table: blocked_users"

/-- `get_unique_ips` (database.py:77-92): distinct IPs of the user within
`IP_WINDOW_SECONDS`. -/
def get_unique_ips (db : ChkDB) (user : String) (now window : Int) :
    Except String (List String) :=
  if "connections" ∈ db.tables then
    .ok (((db.connections.filter
        (fun r => r.userEmail = user && now - window < r.ts)).map
      (fun r => r.ipAddr)).dedup)
  else .error "no such table: connections"

/-- `RemnawaveAPI.get_user_device_limit` (remnawave_api.py:44-62): a failed
user lookup returns 1; a found user yields the limit when positive and 999
when the limit field is absent, null or non-positive. -/
def get_user_device_limit : Option UserRec → Nat
  | none => 1
  | some u =>
    match u.hwidDeviceLimit with
    | some l => if 0 < l then l else 999
    | none => 999

/-- External-call outcomes of one `ConnectionChecker.check_user` run: the
API lookup result, the UUID resolution, whether `disable_user` succeeds,
and the user's current status string. -/
structure CheckerEnv where
  lookup : Option UserRec
  uuidOf : Option String
  disableOk : Bool
  status : String
deriving Repr, DecidableEq

/-- Side effects of the checker, in call order. -/
inductive ChkAction where
  | notifyWarning (user : String) (ipCount limit : Nat)
  | kick (ips : List String)
  | disable (uuid : String)
  | notifyDisabled (user : String)
deriving Repr, DecidableEq

/-- The in-memory `violation_counts` dict of checker.py. -/
abbrev VioCounts := List (String × Nat)

def vcLookup (m : VioCounts) (u : String) : Nat :=
  ((m.find? (fun p => p.1 = u)).map (fun p => p.2)).getD 0

def vcSet (m : VioCounts) (u : String) (n : Nat) : VioCounts :=
  m.filter (fun p => !(p.1 = u)) ++ [(u, n)]

/-- `violation_counts.pop(user, None)`. -/
def vcPop (m : VioCounts) (u : String) : VioCounts :=
  m.filter (fun p => !(p.1 = u))

/-- `ConnectionChecker.check_user` (checker.py:58-115): skip blocked users,
read distinct IPs, compare against `get_user_device_limit`, count
consecutive violations up to `VIOLATION_CONFIRM_COUNT`, then notify, kick
all IPs on all nodes, disable the subscription and persist the block.
SQLite errors (missing tables) propagate as exceptions. -/
def checker_check_user (db : ChkDB) (env : CheckerEnv) (vc : VioCounts)
    (confirmCount : Nat) (now window blockDur : Int) (user : String) :
    Except String (ChkDB × VioCounts × List ChkAction) := do
  let blocked ← is_user_blocked db user now
  if blocked then return (db, vcPop vc user, [])
  let ips ← get_unique_ips db user now window
  if ips.length = 0 then return (db, vcPop vc user, [])
  let limit := get_user_device_limit env.lookup
  if limit < ips.length then
    let cnt := vcLookup vc user + 1
    let vc1 := vcSet vc user cnt
    if cnt < confirmCount then return (db, vc1, [])
    let vc2 := vcPop vc1 user
    let acts := [ChkAction.notifyWarning user ips.length limit,
                 ChkAction.kick ips]
    match env.uuidOf with
    | none => return (db, vc2, acts)
    | some uuid =>
      if env.disableOk then
        let db2 ← add_blocked_user db user (now + blockDur) env.status
        return (db2, vc2,
          acts ++ [ChkAction.disable uuid, ChkAction.notifyDisabled user])
      else
        return (db, vc2, acts ++ [ChkAction.disable uuid])
  else
    return (db, vcPop vc user, [])

/-- **C10** — `init_db` creates only the `connections` table, never
`blocked_users`; consequently, on a database initialised solely by
`init_db`, every call to `is_user_blocked`, `add_blocked_user` or
`get_users_to_unblock` fails with the operational error `no such table`,
and the checker's per-user check path fails for every user. -/
theorem c10_missing_blocked_users_table :
    (init_db ⟨[], [], []⟩).tables = ["connections"]
    ∧ "blocked_users" ∉ (init_db ⟨[], [], []⟩).tables
    ∧ (∀ user now, is_user_blocked freshChkDB user now
        = .error "no such table: blocked_users")
    ∧ (∀ user t s, add_blocked_user freshChkDB user t s
        = .error "no such table: blocked_users")
    ∧ (∀ now, get_users_to_unblock freshChkDB now
        = .error "no such table: blocked_users")
    ∧ (∀ env vc cc now window bd user,
        checker_check_user freshChkDB env vc cc now window bd user
          = .error "no such table: blocked_users") :=
  ⟨by decide, by decide, fun _ _ => rfl, fun _ _ _ => rfl, fun _ => rfl,
    fun _ _ _ _ _ _ _ => rfl⟩

/-- Checker database with both tables present and two fresh IPs for `u1`. -/
def c7ExampleDb : ChkDB :=
  ⟨["connections", "blocked_users"],
   [⟨"u1", "1.1.1.1", none, some "n1", 100⟩,
    ⟨"u1", "2.2.2.2", none, some "n1", 100⟩], []⟩

/-- **C7 counterexample** — In the checker path a FAILED limit lookup maps to
device limit 1 (`get_user_device_limit none = 1`), so subscriber `u1`, whose
lookup failed and who holds two distinct IPs, is flagged and enforced
(warning, kick fan-out, disable, persisted block) — contradicting `never
subject to a violation or enforcement`.  An absent `hwidDeviceLimit`
likewise maps to 999 rather than `no policy`. -/
theorem c7_absent_limit_counterexample :
    get_user_device_limit none = 1
    ∧ get_user_device_limit (some ⟨"uu", none, "ACTIVE"⟩) = 999
    ∧ checker_check_user c7ExampleDb ⟨none, some "uuid1", true, "ACTIVE"⟩ []
        1 100 60 600 "u1"
      = .ok (⟨["connections", "blocked_users"],
          [⟨"u1", "1.1.1.1", none, some "n1", 100⟩,
           ⟨"u1", "2.2.2.2", none, some "n1", 100⟩],
          [⟨"u1", 700, "ACTIVE"⟩]⟩, [],
         [ChkAction.notifyWarning "u1" 2 1,
          ChkAction.kick ["1.1.1.1", "2.2.2.2"],
          ChkAction.disable "uuid1", ChkAction.notifyDisabled "u1"]) :=
  ⟨rfl, rfl, rfl⟩

/-- **C7 (amended)** — In server.py the claim holds: a subscriber whose
fetched limit collapses to 0 (API returned `hwidDeviceLimit` 0 or null, or
the lookup failed) is never subject to a violation, regardless of the index
contents.  In checker.py it does not: `get_user_device_limit` maps a failed
lookup to 1 and an absent or zero `hwidDeviceLimit` to 999, so such
subscribers are still flagged once their IP count exceeds those values. -/
theorem c7_policy_absent_amended (c : ServerCfg) (db : ConnDB)
    (cool : CooldownMap) (now : Int) (user : String)
    (apiUser : Option UserRec) (h : server_fetched_limit apiUser = 0) :
    server_check_user c db cool now apiUser user = ⟨cool, false, []⟩
    ∧ get_user_device_limit none = 1
    ∧ (∀ u : UserRec, u.hwidDeviceLimit = none →
        get_user_device_limit (some u) = 999)
    ∧ (∀ u : UserRec, u.hwidDeviceLimit = some 0 →
        get_user_device_limit (some u) = 999) := by
  refine ⟨?_, rfl, ?_, ?_⟩
  · unfold server_check_user
    simp [h]
  · intro u hu
    simp [get_user_device_limit, hu]
  · intro u hu
    simp [get_user_device_limit, hu]

theorem c7_policy_absent_amended_witness :
    server_fetched_limit (some ⟨"uu", some 0, "ACTIVE"⟩) = 0
    ∧ server_check_user {} [⟨"u", "1.1.1.1", "n1", 100⟩,
        ⟨"u", "2.2.2.2", "n1", 100⟩, ⟨"u", "3.3.3.3", "n1", 100⟩] [] 100
        (some ⟨"uu", some 0, "ACTIVE"⟩) "u" = ⟨[], false, []⟩
    ∧ get_user_device_limit none = 1
    ∧ get_user_device_limit (some ⟨"zz", none, "ACTIVE"⟩) = 999
    ∧ get_user_device_limit (some ⟨"zz", some 0, "ACTIVE"⟩) = 999 :=
  ⟨by decide,
    (c7_policy_absent_amended {} [⟨"u", "1.1.1.1", "n1", 100⟩,
        ⟨"u", "2.2.2.2", "n1", 100⟩, ⟨"u", "3.3.3.3", "n1", 100⟩] [] 100 "u"
        (some ⟨"uu", some 0, "ACTIVE"⟩) (by decide)).1,
    (c7_policy_absent_amended {} [] [] 0 "u" (some ⟨"uu", some 0, "ACTIVE"⟩)
        (by decide)).2.1,
    (c7_policy_absent_amended {} [] [] 0 "u" (some ⟨"uu", some 0, "ACTIVE"⟩)
        (by decide)).2.2.1 ⟨"zz", none, "ACTIVE"⟩ rfl,
    (c7_policy_absent_amended {} [] [] 0 "u" (some ⟨"uu", some 0, "ACTIVE"⟩)
        (by decide)).2.2.2 ⟨"zz", some 0, "ACTIVE"⟩ rfl⟩
